import Mathlib

/-!
Shallow embedding of the booking engine of the luxury-hotel backend
(bookingController: createBooking, updateBookingStatus, updatePaymentStatus,
cancelBooking; apiHelpers.checkRoomAvailability; roomController.getRoomAvailability),
together with theorems settling the frozen claims about it.

Dates are modelled as integer millisecond timestamps (JS `Date` values compare
and subtract as their millisecond numbers).  Monetary values are modelled as
rationals; the JS source performs plain arithmetic on numbers with no rounding
step, which the rational model reflects exactly.
-/

/-- Booking status enum of the Booking model
(`['confirmed', 'pending', 'cancelled', 'checked_in', 'checked_out', 'no_show']`). -/
inductive BStatus
  | pending
  | confirmed
  | checked_in
  | checked_out
  | cancelled
  | no_show
deriving DecidableEq, Repr

/-- The stored status string of a booking, as the Mongo queries of the source
compare it (the model enum uses underscores). -/
def BStatus.str : BStatus → String
  | .pending => "pending"
  | .confirmed => "confirmed"
  | .checked_in => "checked_in"
  | .checked_out => "checked_out"
  | .cancelled => "cancelled"
  | .no_show => "no_show"

/-- Payment status enum accepted by `updatePaymentStatus`
(`['pending', 'processing', 'completed', 'failed', 'refunded']`). -/
inductive PayStatus
  | pending
  | processing
  | completed
  | failed
  | refunded
deriving DecidableEq, Repr

/-- Refund status written by `cancelBooking`. -/
inductive RefundStatus
  | refundPending
  | notApplicable
deriving DecidableEq, Repr

/-- Guest information copied by `createBooking` from the request body. -/
structure GuestInfo where
  firstName : String
  lastName : String
  email : String
  phone : String
  specialRequests : String
deriving DecidableEq, Repr

/-- The pricing breakdown persisted by `createBooking`. -/
structure Pricing where
  pricePerNight : ℚ
  subtotal : ℚ
  taxes : ℚ
  serviceFee : ℚ
  totalAmount : ℚ
deriving DecidableEq, Repr

/-- The payment sub-record of a booking, with the field names the controller
writes (`paymentInfo.method`, `paymentInfo.status`, ...). -/
structure PaymentInfo where
  method : String
  status : PayStatus
  transactionId : Option String
  paymentDate : Option ℤ
  cardLastFour : String
deriving DecidableEq, Repr

/-- The cancellation sub-record written by `cancelBooking`. -/
structure Cancellation where
  cancelledAt : ℤ
  reason : String
  refundAmount : ℚ
  refundStatus : RefundStatus
deriving DecidableEq, Repr

/-- A booking document, restricted to the fields the booking engine reads or
writes.  `id` stands for the Mongo `_id` used to look bookings up. -/
structure Booking where
  id : ℕ
  room : ℕ
  checkInDate : ℤ
  checkOutDate : ℤ
  numberOfGuests : ℕ
  numberOfNights : ℤ
  guestInfo : GuestInfo
  pricing : Pricing
  paymentInfo : PaymentInfo
  bookingStatus : BStatus
  notes : Option String
  cancellation : Option Cancellation
  checkInTime : Option ℤ
  checkOutTime : Option ℤ
deriving DecidableEq, Repr

/-- A room document.  The repository has two drifting Room schemas, and
`createBooking` reads through both with JS fallback chains
(`roomData.pricePerNight || roomData.pricing?.basePrice || 100` and
`roomData.availability?.maxOccupancy || roomData.maxOccupancy || 2`), so the
possibly-absent fields are modelled as options. -/
structure Room where
  id : ℕ
  pricePerNight : Option ℚ
  pricingBasePrice : Option ℚ
  maxOccupancy : Option ℕ
  availMaxOccupancy : Option ℕ
  isAvailable : Bool
deriving DecidableEq, Repr

/-- The persistent store the booking engine operates on. -/
structure ServerState where
  rooms : List Room
  bookings : List Booking
deriving DecidableEq, Repr

/-- The body of a `POST /api/bookings` request, restricted to the fields
`createBooking` reads. -/
structure CreateReq where
  room : ℕ
  checkInDate : ℤ
  checkOutDate : ℤ
  numberOfGuests : ℕ
  guestInfo : GuestInfo
  paymentMethod : Option String
  cardNumber : Option String
  specialRequests : Option String
deriving DecidableEq, Repr

/-- JS truthiness of an optional string (`undefined` and `''` are falsy). -/
def strTruthy : Option String → Bool
  | none => false
  | some s => !s.isEmpty

/-- JS `a || d` for an optional string (`undefined` and `''` fall back). -/
def jsStrOr (o : Option String) (d : String) : String :=
  match o with
  | none => d
  | some s => if s.isEmpty then d else s

/-- JS `a || d` for an optional number (`undefined` and `0` fall back). -/
def jsNumOr (o : Option ℚ) (d : ℚ) : ℚ :=
  match o with
  | none => d
  | some v => if v = 0 then d else v

/-- JS `a || d` for an optional natural number (`undefined` and `0` fall back). -/
def jsNatOr (o : Option ℕ) (d : ℕ) : ℕ :=
  match o with
  | none => d
  | some v => if v = 0 then d else v

/-- Milliseconds per day, the divisor `1000 * 60 * 60 * 24` of the source. -/
def msPerDay : ℤ := 1000 * 60 * 60 * 24

/-- `Math.ceil((checkOut - checkIn) / (1000 * 60 * 60 * 24))`, written as an
integer ceiling division (`nightsOf_eq_ceil` proves it equal to the ceiling of
the exact quotient). -/
def nightsOf (checkIn checkOut : ℤ) : ℤ :=
  -((checkIn - checkOut) / msPerDay)

/-- Effective nightly rate: `roomData.pricePerNight || roomData.pricing?.basePrice || 100`. -/
def effPricePerNight (r : Room) : ℚ :=
  jsNumOr r.pricePerNight (jsNumOr r.pricingBasePrice 100)

/-- Effective occupancy cap: `roomData.availability?.maxOccupancy || roomData.maxOccupancy || 2`. -/
def effMaxOccupancy (r : Room) : ℕ :=
  jsNatOr r.availMaxOccupancy (jsNatOr r.maxOccupancy 2)

/-- `Room.findById`. -/
def findRoom (s : ServerState) (rid : ℕ) : Option Room :=
  s.rooms.find? (fun r => r.id == rid)

/-- `Booking.findById`. -/
def findBooking (s : ServerState) (bid : ℕ) : Option Booking :=
  s.bookings.find? (fun b => b.id == bid)

/-- Write back a saved booking document under its id. -/
def replaceBooking (s : ServerState) (b : Booking) : ServerState :=
  { s with bookings := s.bookings.map (fun x => if x.id == b.id then b else x) }

/-- One conflicting-booking test of the overlap query of `createBooking`:
same room, `checkInDate < checkOut`, `checkOutDate > checkIn`, and
`bookingStatus` in `['confirmed', 'checked_in']`. -/
def isConflict (rid : ℕ) (checkIn checkOut : ℤ) (b : Booking) : Bool :=
  b.room == rid
    && decide (b.checkInDate < checkOut)
    && decide (b.checkOutDate > checkIn)
    && (b.bookingStatus.str == "confirmed" || b.bookingStatus.str == "checked_in")

/-- The overlap query of `createBooking`: whether any existing booking conflicts. -/
def conflictExists (bs : List Booking) (rid : ℕ) (checkIn checkOut : ℤ) : Bool :=
  bs.any (isConflict rid checkIn checkOut)

/-- The error responses `createBooking` can return. -/
inductive CreateErr
  | roomNotFound
  | roomUnavailable
  | invalidRange
  | checkInPast
  | datesConflict
  | occupancyExceeded
deriving DecidableEq, Repr

/-- `createBooking` of the booking controller: looks the room up, checks the
availability flag, the date range, the past-date rule, the overlap query and
the occupancy cap, in that order, then computes the pricing and appends a
`pending` booking.  `now` is the value of `new Date()` during the call; the new
booking id is the next free index. -/
def createBooking (s : ServerState) (now : ℤ) (req : CreateReq) :
    Except CreateErr (Booking × ServerState) :=
  match findRoom s req.room with
  | none => .error .roomNotFound
  | some roomData =>
    if !roomData.isAvailable then .error .roomUnavailable
    else if req.checkInDate ≥ req.checkOutDate then .error .invalidRange
    else if req.checkInDate < now then .error .checkInPast
    else if conflictExists s.bookings req.room req.checkInDate req.checkOutDate then
      .error .datesConflict
    else if req.numberOfGuests > effMaxOccupancy roomData then .error .occupancyExceeded
    else
      let numberOfNights := nightsOf req.checkInDate req.checkOutDate
      let pricePerNight := effPricePerNight roomData
      let subtotal := pricePerNight * (numberOfNights : ℚ)
      let taxRate : ℚ := 12 / 100
      let serviceFee : ℚ := 25
      let taxes := subtotal * taxRate
      let totalAmount := subtotal + taxes + serviceFee
      let b : Booking :=
        { id := s.bookings.length
          room := req.room
          checkInDate := req.checkInDate
          checkOutDate := req.checkOutDate
          numberOfGuests := req.numberOfGuests
          numberOfNights := numberOfNights
          guestInfo := { req.guestInfo with
            specialRequests := jsStrOr req.specialRequests "" }
          pricing :=
            { pricePerNight := pricePerNight
              subtotal := subtotal
              taxes := taxes
              serviceFee := serviceFee
              totalAmount := totalAmount }
          paymentInfo :=
            { method := jsStrOr req.paymentMethod "credit_card"
              status := .pending
              transactionId := none
              paymentDate := none
              cardLastFour := (req.cardNumber.getD "").takeRight 4 }
          bookingStatus := .pending
          notes := none
          cancellation := none
          checkInTime := none
          checkOutTime := none }
      .ok (b, { s with bookings := s.bookings ++ [b] })

/-- The not-found error of the booking update endpoints. -/
inductive UpdErr
  | bookingNotFound
deriving DecidableEq, Repr

/-- `updateBookingStatus` of the booking controller: every status of the enum
passes the `validStatuses` check (the argument type is the enum), the booking
is looked up, its status is overwritten unconditionally, truthy notes are
stored, and a check-in / check-out timestamp is stamped once. -/
def updateBookingStatus (s : ServerState) (now : ℤ) (bid : ℕ) (status : BStatus)
    (notes : Option String) : Except UpdErr (Booking × ServerState) :=
  match findBooking s bid with
  | none => .error .bookingNotFound
  | some b =>
    let b' : Booking :=
      { b with
        bookingStatus := status
        notes := if strTruthy notes then notes else b.notes
        checkInTime :=
          if status == BStatus.checked_in && b.checkInTime.isNone then some now
          else b.checkInTime
        checkOutTime :=
          if status == BStatus.checked_out && b.checkOutTime.isNone then some now
          else b.checkOutTime }
    .ok (b', replaceBooking s b')

/-- `updatePaymentStatus` of the booking controller: every status of the
payment enum passes the `validStatuses` check, `paymentInfo.status` is
overwritten, a truthy transaction id is stored, the payment date is set from
the request or stamped `now` on completion, and a completed payment on a
`pending` booking auto-confirms it. -/
def updatePaymentStatus (s : ServerState) (now : ℤ) (bid : ℕ) (status : PayStatus)
    (transactionId : Option String) (paymentDate : Option ℤ) :
    Except UpdErr (Booking × ServerState) :=
  match findBooking s bid with
  | none => .error .bookingNotFound
  | some b =>
    let b' : Booking :=
      { b with
        paymentInfo :=
          { b.paymentInfo with
            status := status
            transactionId :=
              if strTruthy transactionId then transactionId
              else b.paymentInfo.transactionId
            paymentDate :=
              if paymentDate.isSome then paymentDate
              else if status == PayStatus.completed then some now
              else b.paymentInfo.paymentDate }
        bookingStatus :=
          if status == PayStatus.completed && b.bookingStatus == BStatus.pending then
            BStatus.confirmed
          else b.bookingStatus }
    .ok (b', replaceBooking s b')

/-- The error responses `cancelBooking` can return. -/
inductive CancelErr
  | bookingNotFound
  | alreadyCancelled
  | completedBooking
deriving DecidableEq, Repr

/-- `cancelBooking` of the booking controller: rejects an already-cancelled
booking, then a checked-out one, otherwise sets the status to `cancelled` and
writes the cancellation sub-record (`reason || 'Cancelled by guest'`,
`refundAmount || 0`, refund status from `refundAmount > 0`). -/
def cancelBooking (s : ServerState) (now : ℤ) (bid : ℕ) (reason : Option String)
    (refundAmount : Option ℚ) : Except CancelErr (Booking × ServerState) :=
  match findBooking s bid with
  | none => .error .bookingNotFound
  | some b =>
    if b.bookingStatus == BStatus.cancelled then .error .alreadyCancelled
    else if b.bookingStatus == BStatus.checked_out then .error .completedBooking
    else
      let c : Cancellation :=
        { cancelledAt := now
          reason := jsStrOr reason "Cancelled by guest"
          refundAmount := jsNumOr refundAmount 0
          refundStatus :=
            match refundAmount with
            | some r => if r > 0 then .refundPending else .notApplicable
            | none => .notApplicable }
      let b := { b with bookingStatus := BStatus.cancelled, cancellation := some c }
      .ok (b, replaceBooking s b)

/-- One conflicting-booking test of `checkRoomAvailability` in apiHelpers:
the status filter there is the literal list `['confirmed', 'checked-in']`
(hyphen), compared against the stored underscore statuses, and the optional
`excludeBookingId` is dropped from the conflict set.  The room availability
flag is not consulted. -/
def isHelperConflict (rid : ℕ) (checkIn checkOut : ℤ) (excludeId : Option ℕ)
    (b : Booking) : Bool :=
  b.room == rid
    && (b.bookingStatus.str == "confirmed" || b.bookingStatus.str == "checked-in")
    && decide (b.checkInDate < checkOut)
    && decide (b.checkOutDate > checkIn)
    && (match excludeId with
        | some e => b.id != e
        | none => true)

/-- `checkRoomAvailability(roomId, checkInDate, checkOutDate, excludeBookingId)`
of apiHelpers: true iff the conflict query returns no booking. -/
def checkRoomAvailability (s : ServerState) (rid : ℕ) (checkIn checkOut : ℤ)
    (excludeId : Option ℕ) : Bool :=
  (s.bookings.filter (isHelperConflict rid checkIn checkOut excludeId)).length == 0

/-- The error responses of `getRoomAvailability` (missing query dates are
outside the model, which takes the parsed dates directly). -/
inductive AvailErr
  | invalidRange
  | roomNotFound
deriving DecidableEq, Repr

/-- `getRoomAvailability` of the room controller: rejects a non-positive
range, looks the room up, runs the overlap query with status filter
`['confirmed', 'checked_in']`, and reports
`conflictingBookings.length === 0 && room.isAvailable` together with the
conflict count. -/
def getRoomAvailability (s : ServerState) (rid : ℕ) (checkIn checkOut : ℤ) :
    Except AvailErr (Bool × ℕ) :=
  if checkIn ≥ checkOut then .error .invalidRange
  else
    match findRoom s rid with
    | none => .error .roomNotFound
    | some room =>
      let conflicting := s.bookings.filter (isConflict rid checkIn checkOut)
      .ok (conflicting.length == 0 && room.isAvailable, conflicting.length)

/-- The state after a `createBooking` request (a failed request writes nothing). -/
def applyCreate (s : ServerState) (now : ℤ) (req : CreateReq) : ServerState :=
  match createBooking s now req with
  | .ok (_, s') => s'
  | .error _ => s

/-- The state after an `updateBookingStatus` request. -/
def applyUpdateStatus (s : ServerState) (now : ℤ) (bid : ℕ) (status : BStatus)
    (notes : Option String) : ServerState :=
  match updateBookingStatus s now bid status notes with
  | .ok (_, s') => s'
  | .error _ => s

/-- The state after an `updatePaymentStatus` request. -/
def applyUpdatePayment (s : ServerState) (now : ℤ) (bid : ℕ) (status : PayStatus)
    (transactionId : Option String) (paymentDate : Option ℤ) : ServerState :=
  match updatePaymentStatus s now bid status transactionId paymentDate with
  | .ok (_, s') => s'
  | .error _ => s

/-- The state after a `cancelBooking` request. -/
def applyCancel (s : ServerState) (now : ℤ) (bid : ℕ) (reason : Option String)
    (refundAmount : Option ℚ) : ServerState :=
  match cancelBooking s now bid reason refundAmount with
  | .ok (_, s') => s'
  | .error _ => s

/-- States of the booking store reachable from an initial room catalog with no
bookings by any sequence of `createBooking`, `updateBookingStatus`,
`updatePaymentStatus` and `cancelBooking` requests. -/
inductive Reachable (rooms : List Room) : ServerState → Prop
  | init : Reachable rooms ⟨rooms, []⟩
  | create {s} (now : ℤ) (req : CreateReq) :
      Reachable rooms s → Reachable rooms (applyCreate s now req)
  | updStatus {s} (now : ℤ) (bid : ℕ) (status : BStatus) (notes : Option String) :
      Reachable rooms s → Reachable rooms (applyUpdateStatus s now bid status notes)
  | updPayment {s} (now : ℤ) (bid : ℕ) (status : PayStatus)
      (transactionId : Option String) (paymentDate : Option ℤ) :
      Reachable rooms s →
      Reachable rooms (applyUpdatePayment s now bid status transactionId paymentDate)
  | cancel {s} (now : ℤ) (bid : ℕ) (reason : Option String) (refundAmount : Option ℚ) :
      Reachable rooms s → Reachable rooms (applyCancel s now bid reason refundAmount)

/-- Two date intervals overlap under half-open semantics. -/
def intervalsOverlap (aIn aOut bIn bOut : ℤ) : Bool :=
  decide (aIn < bOut) && decide (bIn < aOut)

/-- The claimed store invariant: any two distinct non-cancelled bookings on the
same room have disjoint half-open date intervals. -/
def noOverlapInvariant (s : ServerState) : Bool :=
  s.bookings.all (fun b1 =>
    s.bookings.all (fun b2 =>
      b1.id == b2.id
        || b1.bookingStatus == BStatus.cancelled
        || b2.bookingStatus == BStatus.cancelled
        || b1.room != b2.room
        || !intervalsOverlap b1.checkInDate b1.checkOutDate b2.checkInDate b2.checkOutDate))

/-- Rounding to two decimal places using standard (half-up) rounding, as the
spec describes monetary rounding. -/
def round2 (q : ℚ) : ℚ :=
  ((⌊q * 100 + 1 / 2⌋ : ℤ) : ℚ) / 100

/-- Guest fixture used by the concrete witnesses. -/
def gAda : GuestInfo :=
  { firstName := "Ada", lastName := "Lovelace", email := "ada@example.com"
    phone := "+15550100", specialRequests := "" }

/-- Room fixture: nightly rate 100, occupancy cap 2, availability flag on. -/
def roomA : Room :=
  { id := 0, pricePerNight := some 100, pricingBasePrice := none
    maxOccupancy := some 2, availMaxOccupancy := none, isAvailable := true }

/-- Millisecond timestamp of 2025-07-01T00:00:00Z, the `now` of the witnesses. -/
def jul1 : ℤ := 1751328000000

/-- Millisecond timestamp of 2025-08-01T00:00:00Z. -/
def aug1 : ℤ := 1754006400000

/-- Millisecond timestamp of 2025-08-02T00:00:00Z. -/
def aug2 : ℤ := aug1 + msPerDay

/-- Millisecond timestamp of 2025-08-03T00:00:00Z. -/
def aug3 : ℤ := aug1 + 2 * msPerDay

/-- Millisecond timestamp of 2025-08-04T00:00:00Z. -/
def aug4 : ℤ := aug1 + 3 * msPerDay

/-- Millisecond timestamp of 2025-08-05T00:00:00Z. -/
def aug5 : ℤ := aug1 + 4 * msPerDay

/-- Booking request fixture for room 0 with the given dates and guest count. -/
def mkReq (checkIn checkOut : ℤ) (guests : ℕ) : CreateReq :=
  { room := 0, checkInDate := checkIn, checkOutDate := checkOut
    numberOfGuests := guests, guestInfo := gAda
    paymentMethod := some "credit_card", cardNumber := none
    specialRequests := none }

/-- Placeholder booking returned by the result extractors on an error. -/
def dummyBooking : Booking :=
  { id := 0, room := 0, checkInDate := 0, checkOutDate := 0, numberOfGuests := 0
    numberOfNights := 0, guestInfo := gAda
    pricing := { pricePerNight := 0, subtotal := 0, taxes := 0, serviceFee := 0
                 totalAmount := 0 }
    paymentInfo := { method := "", status := .pending, transactionId := none
                     paymentDate := none, cardLastFour := "" }
    bookingStatus := .pending, notes := none, cancellation := none
    checkInTime := none, checkOutTime := none }

/-- The booking of a successful result. -/
def extractB {e : Type} (r : Except e (Booking × ServerState)) : Booking :=
  match r with
  | .ok (b, _) => b
  | .error _ => dummyBooking

/-- The state of a successful result. -/
def extractS {e : Type} (r : Except e (Booking × ServerState)) (d : ServerState) :
    ServerState :=
  match r with
  | .ok (_, s) => s
  | .error _ => d

/-- Initial store: room catalog with room `roomA`, no bookings. -/
def s0 : ServerState := ⟨[roomA], []⟩

/-- The store after two identical booking requests for room 0, 2025-08-01 to
2025-08-03 (both succeed, both stay `pending`). -/
def dupState : ServerState :=
  applyCreate (applyCreate s0 jul1 (mkReq aug1 aug3 2)) jul1 (mkReq aug1 aug3 2)

/-- Room fixture with nightly rate 100.55 (a two-decimal price whose 12% tax
has three decimals). -/
def roomB : Room :=
  { id := 0, pricePerNight := some (2011 / 20), pricingBasePrice := none
    maxOccupancy := some 2, availMaxOccupancy := none, isAvailable := true }

/-- Store holding only `roomB`. -/
def sB : ServerState := ⟨[roomB], []⟩

/-- The booking persisted for one night at rate 100.55. -/
def cexB : Booking := extractB (createBooking sB jul1 (mkReq aug1 aug2 2))

/-- A booking fixture on room 0 for 2025-08-01 to 2025-08-03 with the given
status, as `createBooking` would persist it. -/
def mkBk (st : BStatus) : Booking :=
  { id := 0, room := 0, checkInDate := aug1, checkOutDate := aug3
    numberOfGuests := 2, numberOfNights := 2, guestInfo := gAda
    pricing := { pricePerNight := 100, subtotal := 200, taxes := 24
                 serviceFee := 25, totalAmount := 249 }
    paymentInfo := { method := "credit_card", status := .pending
                     transactionId := none, paymentDate := none, cardLastFour := "" }
    bookingStatus := st, notes := none, cancellation := none
    checkInTime := none, checkOutTime := none }

/-- Store with room `roomA` and one booking of the given status. -/
def stState (st : BStatus) : ServerState := ⟨[roomA], [mkBk st]⟩

/-- Store with a confirmed booking for 2025-08-01 to 2025-08-03 on room 0. -/
def w1S : ServerState := stState .confirmed

/-- Room fixture whose availability flag is off. -/
def roomOff : Room := { roomA with isAvailable := false }

/-- Store holding only `roomOff`, with no bookings. -/
def sOff : ServerState := ⟨[roomOff], []⟩

/-- Store with a checked-in booking for 2025-08-01 to 2025-08-03 on room 0. -/
def sCI : ServerState := stState .checked_in

/-- `nightsOf` is the ceiling of the exact day quotient, as `Math.ceil` of the
real division computes it. -/
theorem nightsOf_eq_ceil (a b : ℤ) :
    nightsOf a b = ⌈((b - a : ℤ) : ℚ) / ((msPerDay : ℤ) : ℚ)⌉ := by
  have hd : ((msPerDay : ℤ) : ℚ) = ((86400000 : ℕ) : ℚ) := by norm_num [msPerDay]
  rw [hd, ← neg_neg (((b - a : ℤ) : ℚ) / ((86400000 : ℕ) : ℚ)), Int.ceil_neg, ← neg_div,
    ← Int.cast_neg, Rat.floor_intCast_div_natCast]
  have : -(b - a) = a - b := by ring
  rw [this]
  norm_num [nightsOf, msPerDay]

/-- A stored status string matches the literal `"confirmed"` exactly for the
`confirmed` status. -/
theorem statusStr_confirmed_iff (st : BStatus) :
    (st.str == "confirmed") = true ↔ st = .confirmed := by
  cases st <;> simp [BStatus.str]

/-- A stored status string matches the literal `"checked_in"` exactly for the
`checked_in` status. -/
theorem statusStr_checkedin_iff (st : BStatus) :
    (st.str == "checked_in") = true ↔ st = .checked_in := by
  cases st <;> simp [BStatus.str]

/-- No stored status string matches the hyphenated literal `"checked-in"` used
by `checkRoomAvailability`. -/
theorem statusStr_ne_hyphen (st : BStatus) : (st.str == "checked-in") = false := by
  cases st <;> simp [BStatus.str]

/-- Characterization of one conflict test of the overlap query. -/
theorem isConflict_iff (rid : ℕ) (cin cout : ℤ) (b : Booking) :
    isConflict rid cin cout b = true ↔
      b.room = rid ∧ b.checkInDate < cout ∧ cin < b.checkOutDate ∧
        (b.bookingStatus = .confirmed ∨ b.bookingStatus = .checked_in) := by
  cases hst : b.bookingStatus <;> simp [isConflict, hst, BStatus.str, and_assoc]

/-- Characterization of the overlap query of `createBooking` and
`getRoomAvailability`. -/
theorem conflictExists_iff (bs : List Booking) (rid : ℕ) (cin cout : ℤ) :
    conflictExists bs rid cin cout = true ↔
      ∃ b ∈ bs, b.room = rid ∧ b.checkInDate < cout ∧ cin < b.checkOutDate ∧
        (b.bookingStatus = .confirmed ∨ b.bookingStatus = .checked_in) := by
  simp only [conflictExists, List.any_eq_true, isConflict_iff]

/-- What a successful `createBooking` persists, extracted from the success
branch of the control flow. -/
theorem createBooking_ok_inv (s : ServerState) (now : ℤ) (req : CreateReq)
    (b : Booking) (s' : ServerState) (h : createBooking s now req = .ok (b, s')) :
    ∃ room, findRoom s req.room = some room ∧
      conflictExists s.bookings req.room req.checkInDate req.checkOutDate = false ∧
      req.numberOfGuests ≤ effMaxOccupancy room ∧
      b.checkInDate = req.checkInDate ∧
      b.checkOutDate = req.checkOutDate ∧
      b.numberOfNights = nightsOf req.checkInDate req.checkOutDate ∧
      b.pricing.pricePerNight = effPricePerNight room ∧
      b.pricing.subtotal = effPricePerNight room * ((nightsOf req.checkInDate req.checkOutDate : ℤ) : ℚ) ∧
      b.pricing.taxes = b.pricing.subtotal * (12 / 100) ∧
      b.pricing.serviceFee = 25 ∧
      b.pricing.totalAmount = b.pricing.subtotal + b.pricing.taxes + b.pricing.serviceFee ∧
      b.bookingStatus = .pending ∧
      s' = { s with bookings := s.bookings ++ [b] } := by
  unfold createBooking at h
  cases hfind : findRoom s req.room with
  | none => rw [hfind] at h; exact absurd h (by simp)
  | some room =>
    rw [hfind] at h
    refine ⟨room, rfl, ?_⟩
    by_cases hA : room.isAvailable = true
    · by_cases hR : req.checkInDate ≥ req.checkOutDate
      · simp [hA, hR] at h
      · by_cases hP : req.checkInDate < now
        · simp [hA, hR, hP] at h
        · by_cases hC : conflictExists s.bookings req.room req.checkInDate req.checkOutDate = true
          · simp [hA, hR, hP, hC] at h
          · by_cases hO : req.numberOfGuests > effMaxOccupancy room
            · simp [hA, hR, hP, hC, hO] at h
            · have hC' :
                  conflictExists s.bookings req.room req.checkInDate req.checkOutDate = false := by
                simpa using hC
              simp only [] at h
              rw [if_neg (by simp [hA] : ¬((!room.isAvailable) = true)), if_neg hR, if_neg hP,
                if_neg hC, if_neg hO] at h
              simp only [Except.ok.injEq, Prod.mk.injEq] at h
              obtain ⟨hb, hs⟩ := h
              subst hb
              subst hs
              exact ⟨hC', not_lt.mp hO, rfl, rfl, rfl, rfl, rfl, rfl, rfl, rfl, rfl, rfl⟩
    · simp [hA] at h

/-- When the room lookup, availability flag, range and past-date checks pass
and the overlap query finds a conflict, `createBooking` fails with the
room-not-available-for-dates error. -/
theorem createBooking_conflict_error (s : ServerState) (now : ℤ) (req : CreateReq) (room : Room)
    (hfind : findRoom s req.room = some room) (hA : room.isAvailable = true)
    (hR : req.checkInDate < req.checkOutDate) (hP : ¬ req.checkInDate < now)
    (hC : conflictExists s.bookings req.room req.checkInDate req.checkOutDate = true) :
    createBooking s now req = .error .datesConflict := by
  unfold createBooking
  rw [hfind]
  simp only []
  rw [if_neg (by simp [hA] : ¬((!room.isAvailable) = true)), if_neg (not_le.mpr hR), if_neg hP,
    if_pos hC]

/-- When the earlier checks pass, the overlap query is clean and the guest
count exceeds the occupancy cap, `createBooking` fails with the occupancy
error. -/
theorem createBooking_occupancy_error (s : ServerState) (now : ℤ) (req : CreateReq) (room : Room)
    (hfind : findRoom s req.room = some room) (hA : room.isAvailable = true)
    (hR : req.checkInDate < req.checkOutDate) (hP : ¬ req.checkInDate < now)
    (hC : conflictExists s.bookings req.room req.checkInDate req.checkOutDate = false)
    (hO : effMaxOccupancy room < req.numberOfGuests) :
    createBooking s now req = .error .occupancyExceeded := by
  unfold createBooking
  rw [hfind]
  simp only []
  rw [if_neg (by simp [hA] : ¬((!room.isAvailable) = true)), if_neg (not_le.mpr hR), if_neg hP,
    if_neg (by simp [hC]), if_pos hO]

/-- When every check passes, `createBooking` succeeds. -/
theorem createBooking_ok_of (s : ServerState) (now : ℤ) (req : CreateReq) (room : Room)
    (hfind : findRoom s req.room = some room) (hA : room.isAvailable = true)
    (hR : req.checkInDate < req.checkOutDate) (hP : ¬ req.checkInDate < now)
    (hC : conflictExists s.bookings req.room req.checkInDate req.checkOutDate = false)
    (hO : req.numberOfGuests ≤ effMaxOccupancy room) :
    ∃ b s', createBooking s now req = .ok (b, s') := by
  unfold createBooking
  rw [hfind]
  simp only []
  rw [if_neg (by simp [hA] : ¬((!room.isAvailable) = true)), if_neg (not_le.mpr hR), if_neg hP,
    if_neg (by simp [hC]), if_neg (not_lt.mpr hO)]
  exact ⟨_, _, rfl⟩

/-- C1 (amended): the claimed store-wide invariant does not hold on all
reachable states; what `createBooking` does guarantee is creation-time
disjointness: a booking created by a successful `createBooking` call has a
half-open interval disjoint from every booking already in the store on the
same room whose status is confirmed or checked-in. -/
theorem claim_C1_create_disjoint (s : ServerState) (now : ℤ) (req : CreateReq)
    (b : Booking) (s' : ServerState) (h : createBooking s now req = .ok (b, s')) :
    ∀ b2 ∈ s.bookings, b2.room = req.room →
      (b2.bookingStatus = .confirmed ∨ b2.bookingStatus = .checked_in) →
      intervalsOverlap b.checkInDate b.checkOutDate b2.checkInDate b2.checkOutDate = false := by
  obtain ⟨room, hfind, hC, hocc, hcin, hcout, hrest⟩ := createBooking_ok_inv s now req b s' h
  intro b2 hb2 hroom hst
  have h2 : ¬ isConflict req.room req.checkInDate req.checkOutDate b2 = true := by
    rw [conflictExists] at hC
    exact (List.any_eq_false.mp hC) b2 hb2
  rw [isConflict_iff] at h2
  push_neg at h2
  rw [intervalsOverlap, hcin, hcout]
  by_cases hd1 : req.checkInDate < b2.checkOutDate
  · by_cases hd2 : b2.checkInDate < req.checkOutDate
    · rcases hst with hst | hst
      · exact absurd hst (h2 hroom hd2 hd1).1
      · exact absurd hst (h2 hroom hd2 hd1).2
    · simp [hd2]
  · simp [hd1]

/-- C1 witness: in a store with a confirmed booking for 2025-08-01..2025-08-03
on room 0, the booking created for 2025-08-03..2025-08-05 is disjoint from it. -/
theorem claim_C1_witness :
    intervalsOverlap (extractB (createBooking w1S jul1 (mkReq aug3 aug5 2))).checkInDate
      (extractB (createBooking w1S jul1 (mkReq aug3 aug5 2))).checkOutDate
      (mkBk .confirmed).checkInDate (mkBk .confirmed).checkOutDate = false :=
  claim_C1_create_disjoint w1S jul1 (mkReq aug3 aug5 2)
    (extractB (createBooking w1S jul1 (mkReq aug3 aug5 2)))
    (extractS (createBooking w1S jul1 (mkReq aug3 aug5 2)) w1S) rfl
    (mkBk .confirmed) (by simp [w1S, stState]) rfl (Or.inl rfl)

/-- C1 counterexample: two identical `createBooking` calls both succeed (a
pending booking is not a conflict), so a reachable state holds two distinct
non-cancelled bookings on the same room with identical, overlapping intervals,
refuting the claimed invariant over reachable states. -/
theorem claim_C1_counterexample :
    Reachable [roomA] dupState ∧ noOverlapInvariant dupState = false :=
  ⟨Reachable.create jul1 (mkReq aug1 aug3 2)
      (Reachable.create jul1 (mkReq aug1 aug3 2) Reachable.init),
    by decide⟩

/-- C2 (amended): a successful `createBooking` persists
nights = ceil((checkOut - checkIn) in days), subtotal = nightlyRate x nights,
taxes = subtotal x 12 percent, a fixed service fee of 25 and
total = subtotal + taxes + fee, all as exact values: the source has no
rounding step. -/
theorem claim_C2_pricing (s : ServerState) (now : ℤ) (req : CreateReq)
    (b : Booking) (s' : ServerState) (h : createBooking s now req = .ok (b, s')) :
    b.numberOfNights = ⌈((req.checkOutDate - req.checkInDate : ℤ) : ℚ) / ((msPerDay : ℤ) : ℚ)⌉ ∧
    b.pricing.subtotal = b.pricing.pricePerNight * (b.numberOfNights : ℚ) ∧
    b.pricing.taxes = b.pricing.subtotal * (12 / 100) ∧
    b.pricing.serviceFee = 25 ∧
    b.pricing.totalAmount = b.pricing.subtotal + b.pricing.taxes + b.pricing.serviceFee := by
  obtain ⟨room, hfind, hC, hocc, hcin, hcout, hn, hppn, hsub, htx, hfee, htot, hst, hs⟩ :=
    createBooking_ok_inv s now req b s' h
  refine ⟨?_, ?_, htx, hfee, htot⟩
  · rw [hn]
    exact nightsOf_eq_ceil _ _
  · rw [hsub, hppn, hn]

/-- C2 witness: the spec scenario — rate 100, two nights — yields
subtotal 200, taxes 24, fee 25, total 249, with total = subtotal + taxes + fee
coming from the claim theorem. -/
theorem claim_C2_witness :
    (extractB (createBooking s0 jul1 (mkReq aug1 aug3 2))).pricing.totalAmount =
        (extractB (createBooking s0 jul1 (mkReq aug1 aug3 2))).pricing.subtotal +
          (extractB (createBooking s0 jul1 (mkReq aug1 aug3 2))).pricing.taxes +
          (extractB (createBooking s0 jul1 (mkReq aug1 aug3 2))).pricing.serviceFee ∧
    (extractB (createBooking s0 jul1 (mkReq aug1 aug3 2))).numberOfNights = 2 ∧
    (extractB (createBooking s0 jul1 (mkReq aug1 aug3 2))).pricing.subtotal = 200 ∧
    (extractB (createBooking s0 jul1 (mkReq aug1 aug3 2))).pricing.taxes = 24 ∧
    (extractB (createBooking s0 jul1 (mkReq aug1 aug3 2))).pricing.totalAmount = 249 := by
  refine ⟨(claim_C2_pricing s0 jul1 (mkReq aug1 aug3 2)
      (extractB (createBooking s0 jul1 (mkReq aug1 aug3 2)))
      (extractS (createBooking s0 jul1 (mkReq aug1 aug3 2)) s0) rfl).2.2.2.2, by decide, ?_, ?_, ?_⟩
  all_goals
    norm_num [extractB, createBooking, findRoom, List.find?, mkReq, s0, roomA, gAda,
      effPricePerNight, effMaxOccupancy, jsNumOr, jsNatOr, conflictExists, List.any, nightsOf,
      msPerDay, aug1, aug3, jul1]

/-- C2 counterexample: for a room priced 100.55 and one night, the persisted
taxes are exactly 12.066, which is not a value rounded to two decimal places —
the source stores the raw product with no rounding. -/
theorem claim_C2_counterexample :
    (createBooking sB jul1 (mkReq aug1 aug2 2)).isOk = true ∧
    cexB.pricing.taxes = 12066 / 1000 ∧
    round2 (12066 / 1000 : ℚ) ≠ (12066 / 1000 : ℚ) := by
  refine ⟨by decide, ?_, ?_⟩
  · norm_num [cexB, extractB, createBooking, findRoom, List.find?, mkReq, sB, roomB, gAda,
      effPricePerNight, effMaxOccupancy, jsNumOr, jsNatOr, conflictExists, List.any, nightsOf,
      msPerDay, aug1, aug2, jul1]
  · norm_num [round2]

/-- C3: for a request on an existing, available room with a valid future date
range, `createBooking` fails with the room-not-available error exactly when
some existing booking on the same room with status confirmed or checked-in
has a half-open interval intersecting the requested one. -/
theorem claim_C3_conflict_iff (s : ServerState) (now : ℤ) (req : CreateReq) (room : Room)
    (hfind : findRoom s req.room = some room) (hA : room.isAvailable = true)
    (hR : req.checkInDate < req.checkOutDate) (hP : ¬ req.checkInDate < now) :
    createBooking s now req = .error .datesConflict ↔
      ∃ b ∈ s.bookings, b.room = req.room ∧ b.checkInDate < req.checkOutDate ∧
        req.checkInDate < b.checkOutDate ∧
        (b.bookingStatus = .confirmed ∨ b.bookingStatus = .checked_in) := by
  constructor
  · intro h
    by_cases hC : conflictExists s.bookings req.room req.checkInDate req.checkOutDate = true
    · exact (conflictExists_iff _ _ _ _).mp hC
    · exfalso
      have hC' : conflictExists s.bookings req.room req.checkInDate req.checkOutDate = false := by
        simpa using hC
      by_cases hO : effMaxOccupancy room < req.numberOfGuests
      · have := createBooking_occupancy_error s now req room hfind hA hR hP hC' hO
        rw [this] at h
        exact absurd (Except.error.inj h) (by decide)
      · obtain ⟨b, s', hb⟩ :=
          createBooking_ok_of s now req room hfind hA hR hP hC' (not_lt.mp hO)
        rw [hb] at h
        exact Except.noConfusion h
  · intro hex
    exact createBooking_conflict_error s now req room hfind hA hR hP
      ((conflictExists_iff _ _ _ _).mpr hex)

/-- C3 witness: with a confirmed booking for 2025-08-01..2025-08-03 on room 0,
a request for 2025-08-02..2025-08-04 fails with the room-not-available error,
and a request for 2025-08-03..2025-08-05 does not (half-open semantics). -/
theorem claim_C3_witness :
    createBooking w1S jul1 (mkReq aug2 aug4 2) = .error .datesConflict ∧
    createBooking w1S jul1 (mkReq aug3 aug5 2) ≠ .error .datesConflict := by
  constructor
  · exact (claim_C3_conflict_iff w1S jul1 (mkReq aug2 aug4 2) roomA rfl rfl (by decide)
      (by decide)).mpr ⟨mkBk .confirmed, by simp [w1S, stState], rfl, by decide, by decide,
        Or.inl rfl⟩
  · intro h
    have hex := (claim_C3_conflict_iff w1S jul1 (mkReq aug3 aug5 2) roomA rfl rfl (by decide)
      (by decide)).mp h
    revert hex
    decide

/-- C9 (amended): a request whose guest count exceeds the room's effective
occupancy cap is always rejected, but the occupancy error itself is only
returned when the overlap query is clean, because the source checks conflicts
before occupancy; with a conflicting booking present the room-not-available
error wins. -/
theorem claim_C9_occupancy (s : ServerState) (now : ℤ) (req : CreateReq) (room : Room)
    (hfind : findRoom s req.room = some room)
    (hocc : effMaxOccupancy room < req.numberOfGuests) :
    (∀ b s', createBooking s now req ≠ .ok (b, s')) ∧
    (room.isAvailable = true → req.checkInDate < req.checkOutDate → ¬ req.checkInDate < now →
      conflictExists s.bookings req.room req.checkInDate req.checkOutDate = false →
      createBooking s now req = .error .occupancyExceeded) := by
  constructor
  · intro b s' h
    obtain ⟨room2, hfind2, hC, hocc2, hrest⟩ := createBooking_ok_inv s now req b s' h
    rw [hfind] at hfind2
    cases Option.some.inj hfind2
    exact absurd hocc2 (not_le.mpr hocc)
  · intro hA hR hP hC
    exact createBooking_occupancy_error s now req room hfind hA hR hP hC hocc

/-- C9 witness: five guests on a cap-2 room with no conflicting booking are
rejected with the occupancy error. -/
theorem claim_C9_witness :
    createBooking s0 jul1 (mkReq aug1 aug3 5) = .error .occupancyExceeded :=
  (claim_C9_occupancy s0 jul1 (mkReq aug1 aug3 5) roomA rfl (by decide)).2 rfl
    (by decide) (by decide) (by decide)

/-- C9 counterexample: with a confirmed conflicting booking present, a
five-guest request on a cap-2 room is rejected with the room-not-available
error, not the occupancy error — the occupancy check does not precede the
overlap query. -/
theorem claim_C9_counterexample :
    effMaxOccupancy roomA < (mkReq aug2 aug4 5).numberOfGuests ∧
    findRoom w1S (mkReq aug2 aug4 5).room = some roomA ∧
    createBooking w1S jul1 (mkReq aug2 aug4 5) = .error .datesConflict ∧
    createBooking w1S jul1 (mkReq aug2 aug4 5) ≠ .error .occupancyExceeded := by
  refine ⟨by decide, rfl, rfl, ?_⟩
  intro h
  rw [show createBooking w1S jul1 (mkReq aug2 aug4 5) = .error .datesConflict from rfl] at h
  exact absurd (Except.error.inj h) (by decide)

/-- Characterization of one conflict test of `checkRoomAvailability`: only the
`confirmed` status can match its filter (its `"checked-in"` literal matches no
stored status), and the excluded booking id never matches. -/
theorem isHelperConflict_iff (rid : ℕ) (cin cout : ℤ) (ex : Option ℕ) (b : Booking) :
    isHelperConflict rid cin cout ex b = true ↔
      b.room = rid ∧ b.bookingStatus = .confirmed ∧ b.checkInDate < cout ∧
        cin < b.checkOutDate ∧ (∀ e, ex = some e → b.id ≠ e) := by
  cases ex with
  | none => cases hst : b.bookingStatus <;> simp [isHelperConflict, hst, BStatus.str, and_assoc]
  | some e => cases hst : b.bookingStatus <;> simp [isHelperConflict, hst, BStatus.str, and_assoc]

/-- C4 (amended): the endpoint query `getRoomAvailability` reports available
iff the room's availability flag is on and no booking with status confirmed or
checked-in intersects the half-open range, but it takes no exclusion
parameter; the helper `checkRoomAvailability`, which takes `excludeBookingId`,
never consults the availability flag and counts only `confirmed` bookings as
conflicts, because its hyphenated `"checked-in"` status literal matches no
stored status. -/
theorem claim_C4_availability (s : ServerState) (rid : ℕ) (cin cout : ℤ) (ex : Option ℕ)
    (room : Room) (avail : Bool) (cnt : ℕ)
    (hfind : findRoom s rid = some room) (hrange : cin < cout) :
    (checkRoomAvailability s rid cin cout ex = true ↔
      ∀ b ∈ s.bookings, ¬(b.room = rid ∧ b.bookingStatus = .confirmed ∧
        b.checkInDate < cout ∧ cin < b.checkOutDate ∧ (∀ e, ex = some e → b.id ≠ e))) ∧
    (getRoomAvailability s rid cin cout = .ok (avail, cnt) →
      (avail = true ↔ room.isAvailable = true ∧
        ∀ b ∈ s.bookings, ¬(b.room = rid ∧ b.checkInDate < cout ∧ cin < b.checkOutDate ∧
          (b.bookingStatus = .confirmed ∨ b.bookingStatus = .checked_in)))) := by
  constructor
  · rw [checkRoomAvailability, beq_iff_eq, List.length_eq_zero, List.filter_eq_nil_iff]
    exact forall₂_congr fun b hb => not_congr (isHelperConflict_iff rid cin cout ex b)
  · intro hok
    unfold getRoomAvailability at hok
    rw [if_neg (not_le.mpr hrange), hfind] at hok
    simp only [Except.ok.injEq, Prod.mk.injEq] at hok
    obtain ⟨h1, h2⟩ := hok
    subst h1
    rw [Bool.and_eq_true, beq_iff_eq, List.length_eq_zero, List.filter_eq_nil_iff, and_comm]
    exact and_congr_right fun _ =>
      forall₂_congr fun b hb => not_congr (isConflict_iff rid cin cout b)

/-- C4 witness: with a confirmed booking (id 0) for 2025-08-01..2025-08-03 on
room 0, `checkRoomAvailability` for the overlapping range 2025-08-02..
2025-08-04 excluding booking 0 reports the room free. -/
theorem claim_C4_witness : checkRoomAvailability w1S 0 aug2 aug4 (some 0) = true :=
  (claim_C4_availability w1S 0 aug2 aug4 (some 0) roomA true 0 rfl (by decide)).1.mpr (by
    intro b hb
    simp only [w1S, stState, List.mem_singleton] at hb
    subst hb
    rintro ⟨hr, hs, h1, h2, hex⟩
    exact hex 0 rfl rfl)

/-- C4 counterexample: `checkRoomAvailability` returns true for a room whose
availability flag is off, and returns true despite an overlapping checked-in
booking (its status literal `"checked-in"` matches no stored status), so the
claimed characterization of `isAvailable` is false of it. -/
theorem claim_C4_counterexample :
    roomOff.isAvailable = false ∧
    findRoom sOff 0 = some roomOff ∧
    checkRoomAvailability sOff 0 aug1 aug3 none = true ∧
    (mkBk .checked_in).bookingStatus = .checked_in ∧
    (mkBk .checked_in).room = 0 ∧
    (mkBk .checked_in).checkInDate < aug4 ∧ aug2 < (mkBk .checked_in).checkOutDate ∧
    checkRoomAvailability sCI 0 aug2 aug4 none = true := by
  refine ⟨rfl, rfl, by decide, rfl, rfl, by decide, by decide, by decide⟩

/-- C5: for an existing booking and any status of the payment enum,
`updatePaymentStatus` succeeds, sets the payment sub-record's status to the
requested one, and stores the transaction id when one is supplied (truthy). -/
theorem claim_C5_updatePayment (s : ServerState) (now : ℤ) (bid : ℕ) (st : PayStatus)
    (tid : Option String) (pdate : Option ℤ) (b : Booking)
    (hfind : findBooking s bid = some b) :
    ∃ b' s', updatePaymentStatus s now bid st tid pdate = .ok (b', s') ∧
      b'.paymentInfo.status = st ∧
      (strTruthy tid = true → b'.paymentInfo.transactionId = tid) := by
  unfold updatePaymentStatus
  rw [hfind]
  refine ⟨_, _, rfl, rfl, fun ht => ?_⟩
  show (if strTruthy tid = true then tid else b.paymentInfo.transactionId) = tid
  rw [if_pos ht]

/-- C5 witness: setting payment status `processing` with transaction id
`TX123` on the pending fixture booking persists both. -/
theorem claim_C5_witness :
    ∃ b' s', updatePaymentStatus (stState .pending) jul1 0 .processing (some "TX123") none
        = .ok (b', s') ∧
      b'.paymentInfo.status = .processing ∧
      (strTruthy (some "TX123") = true → b'.paymentInfo.transactionId = some "TX123") :=
  claim_C5_updatePayment (stState .pending) jul1 0 .processing (some "TX123") none
    (mkBk .pending) rfl

/-- C6: marking payment completed on a pending booking auto-promotes the
booking status to confirmed, and on an already-confirmed booking leaves the
booking status unchanged. -/
theorem claim_C6_autoconfirm (s : ServerState) (now : ℤ) (bid : ℕ)
    (tid : Option String) (pdate : Option ℤ) (b : Booking)
    (hfind : findBooking s bid = some b) :
    (b.bookingStatus = .pending → ∃ b' s',
      updatePaymentStatus s now bid .completed tid pdate = .ok (b', s') ∧
      b'.bookingStatus = .confirmed) ∧
    (b.bookingStatus = .confirmed → ∃ b' s',
      updatePaymentStatus s now bid .completed tid pdate = .ok (b', s') ∧
      b'.bookingStatus = b.bookingStatus) := by
  unfold updatePaymentStatus
  rw [hfind]
  constructor <;> intro hst <;> refine ⟨_, _, rfl, ?_⟩ <;> simp [hst]

/-- C6 witness: payment completion confirms a pending booking and leaves a
confirmed one confirmed. -/
theorem claim_C6_witness :
    (∃ b' s', updatePaymentStatus (stState .pending) jul1 0 .completed none none
        = .ok (b', s') ∧ b'.bookingStatus = .confirmed) ∧
    (∃ b' s', updatePaymentStatus (stState .confirmed) jul1 0 .completed none none
        = .ok (b', s') ∧ b'.bookingStatus = (mkBk .confirmed).bookingStatus) :=
  ⟨(claim_C6_autoconfirm (stState .pending) jul1 0 none none (mkBk .pending) rfl).1 rfl,
    (claim_C6_autoconfirm (stState .confirmed) jul1 0 none none (mkBk .confirmed) rfl).2 rfl⟩

/-- C7: cancelling an already-cancelled booking fails with the
already-cancelled error, cancelling a checked-out booking fails with the
completed-booking error, and in both cases the store is left unchanged. -/
theorem claim_C7_cancel_terminal (s : ServerState) (now : ℤ) (bid : ℕ)
    (reason : Option String) (amt : Option ℚ) (b : Booking)
    (hfind : findBooking s bid = some b) :
    (b.bookingStatus = .cancelled →
      cancelBooking s now bid reason amt = .error .alreadyCancelled ∧
      applyCancel s now bid reason amt = s) ∧
    (b.bookingStatus = .checked_out →
      cancelBooking s now bid reason amt = .error .completedBooking ∧
      applyCancel s now bid reason amt = s) := by
  constructor <;> intro hst
  · have hc : cancelBooking s now bid reason amt = .error .alreadyCancelled := by
      unfold cancelBooking
      rw [hfind]
      simp [hst]
    exact ⟨hc, by unfold applyCancel; rw [hc]⟩
  · have hc : cancelBooking s now bid reason amt = .error .completedBooking := by
      unfold cancelBooking
      rw [hfind]
      simp [hst]
    exact ⟨hc, by unfold applyCancel; rw [hc]⟩

/-- C7 witness: the two terminal statuses rejected concretely, with the store
unchanged. -/
theorem claim_C7_witness :
    (cancelBooking (stState .cancelled) jul1 0 (some "change of plans") (some 50)
        = .error .alreadyCancelled ∧
      applyCancel (stState .cancelled) jul1 0 (some "change of plans") (some 50)
        = stState .cancelled) ∧
    (cancelBooking (stState .checked_out) jul1 0 (some "change of plans") (some 50)
        = .error .completedBooking ∧
      applyCancel (stState .checked_out) jul1 0 (some "change of plans") (some 50)
        = stState .checked_out) :=
  ⟨(claim_C7_cancel_terminal (stState .cancelled) jul1 0 (some "change of plans") (some 50)
      (mkBk .cancelled) rfl).1 rfl,
    (claim_C7_cancel_terminal (stState .checked_out) jul1 0 (some "change of plans") (some 50)
      (mkBk .checked_out) rfl).2 rfl⟩

/-- C8: cancelling a booking that is neither cancelled nor checked-out sets
its status to cancelled and persists the cancellation sub-record with the
timestamp, the given (non-empty) reason and the given refund amount, the
refund status being pending exactly when the refund amount is positive. -/
theorem claim_C8_cancel_success (s : ServerState) (now : ℤ) (bid : ℕ) (rs : String) (amt : ℚ)
    (b : Booking) (hfind : findBooking s bid = some b)
    (h1 : b.bookingStatus ≠ .cancelled) (h2 : b.bookingStatus ≠ .checked_out)
    (hrs : rs.isEmpty = false) :
    ∃ b' s', cancelBooking s now bid (some rs) (some amt) = .ok (b', s') ∧
      b'.bookingStatus = .cancelled ∧
      b'.cancellation = some
        { cancelledAt := now, reason := rs, refundAmount := amt
          refundStatus := if 0 < amt then .refundPending else .notApplicable } := by
  unfold cancelBooking
  rw [hfind]
  simp only []
  rw [if_neg (by simp [h1]), if_neg (by simp [h2])]
  refine ⟨_, _, rfl, rfl, ?_⟩
  by_cases h0 : amt = 0
  · simp [jsStrOr, jsNumOr, hrs, h0]
  · simp [jsStrOr, jsNumOr, hrs, h0]

/-- C8 witness: cancelling the confirmed fixture booking with reason
`change of plans` and refund 50 persists the full cancellation sub-record. -/
theorem claim_C8_witness :
    ∃ b' s', cancelBooking (stState .confirmed) jul1 0 (some "change of plans") (some 50)
        = .ok (b', s') ∧
      b'.bookingStatus = .cancelled ∧
      b'.cancellation = some
        { cancelledAt := jul1, reason := "change of plans", refundAmount := 50
          refundStatus := if (0 : ℚ) < 50 then .refundPending else .notApplicable } :=
  claim_C8_cancel_success (stState .confirmed) jul1 0 "change of plans" 50 (mkBk .confirmed)
    rfl (by decide) (by decide) rfl

/-- C10: `updateBookingStatus` accepts every status of the enum from every
current status: it always succeeds on an existing booking and stores exactly
the requested status, with no transition restriction. -/
theorem claim_C10_status_any (s : ServerState) (now : ℤ) (bid : ℕ) (status : BStatus)
    (notes : Option String) (b : Booking) (hfind : findBooking s bid = some b) :
    ∃ b' s', updateBookingStatus s now bid status notes = .ok (b', s') ∧
      b'.bookingStatus = status := by
  unfold updateBookingStatus
  rw [hfind]
  exact ⟨_, _, rfl, rfl⟩

/-- C10 witness: a terminal checked-out booking is moved back to pending. -/
theorem claim_C10_witness :
    ∃ b' s', updateBookingStatus (stState .checked_out) jul1 0 .pending none = .ok (b', s') ∧
      b'.bookingStatus = .pending :=
  claim_C10_status_any (stState .checked_out) jul1 0 .pending none (mkBk .checked_out) rfl
